import Mathlib

/-!
Formal model of the payment reconciliation core of the FastDeal marketplace
backend (models/Payment.js, models/Order.js, routes/payments.js).

Statuses, currencies, methods and identifiers are kept as the raw strings the
JavaScript code uses.  Clock reads (Date.now()) and random suffixes
(Math.random().toString(36).substr(2, 9)) are explicit parameters.  Gateway
network calls are modelled by an explicit transport outcome parameter of type
Except: ok carries the provider response, error models a thrown axios or
stripe exception.  Database reads and writes (findOne, findById, save) are
modelled over an explicit store of Payment and Order documents keyed by
paymentId and by the database object identifier.  Response payload data
objects are not modelled; the HTTP status code, the success flag and the
message field are.
-/

namespace FastDeal

/-- Millisecond timestamps, as produced by Date.now(). -/
abbrev Millis := Nat

/-- Body of an Orange Money webhook delivery: the three fields the handler
destructures from req.body (routes/payments.js, webhook/orange-money). -/
structure OrangeWebhookBody where
  transaction_id : Option String
  status : String
  reference : String
deriving DecidableEq, Repr

/-- Provider response of the Orange Money pay call, as read by the initiate
route (transaction_id and payment_url fields). -/
structure OrangeInitResp where
  transaction_id : Option String
  payment_url : Option String
deriving DecidableEq, Repr

/-- Neutralised result of MTNMoneyAPI.requestPayment: the generated
X-Reference-Id transaction identifier. -/
structure MtnInitResp where
  transactionId : String
deriving DecidableEq, Repr

/-- A Stripe payment intent as consumed by the webhook and poll handlers. -/
structure StripeIntent where
  id : String
  status : String
deriving DecidableEq, Repr

/-- Provider status payload consumed by the status poll route: only the status
field is read. -/
structure PollResp where
  status : String
deriving DecidableEq, Repr

/-- Raw gateway payloads stored into Payment.gateway.gatewayResponse or into
attempt entries (schema type Mixed): one constructor per payload shape the
routes actually store. -/
inductive GatewayBlob where
  | orangeInit (resp : OrangeInitResp)
  | mtnInit (resp : MtnInitResp)
  | orangeHook (body : OrangeWebhookBody)
  | stripeIntent (intent : StripeIntent)
deriving DecidableEq, Repr

/-- Payment.gateway sub-document (paymentSchema.gateway). -/
structure GatewayInfo where
  transactionId : Option String
  gatewayResponse : Option GatewayBlob
  gatewayFees : Option Int
deriving DecidableEq, Repr

/-- Payment.mobileMoneyDetails sub-document. -/
structure MobileMoneyDetails where
  phoneNumber : Option String
  operator : Option String
  reference : Option String
deriving DecidableEq, Repr

/-- Payment.stripeDetails sub-document. -/
structure StripeDetails where
  paymentIntentId : Option String
  chargeId : Option String
  receiptUrl : Option String
deriving DecidableEq, Repr

/-- One entry of the append-only attempts log (paymentSchema.attempts); the
timestamp default Date.now is materialised at push time. -/
structure Attempt where
  timestamp : Millis
  status : String
  errorMessage : Option String
  gatewayResponse : Option GatewayBlob
deriving DecidableEq, Repr

/-- A Payment document (models/Payment.js, paymentSchema).  objectId is the
database-assigned identifier (_id), distinct from the generated paymentId.
Fields the reconciliation routes never touch (paypalDetails, fees, settlement,
refund, metadata) are omitted. -/
structure Payment where
  objectId : String
  paymentId : String
  order : String
  user : String
  amount : Int
  currency : String
  method : String
  status : String
  gateway : GatewayInfo
  mobileMoneyDetails : MobileMoneyDetails
  stripeDetails : StripeDetails
  attempts : List Attempt
  completedAt : Option Millis
  failedAt : Option Millis
  createdAt : Millis
  expiresAt : Millis
deriving DecidableEq, Repr

/-- An Order document (models/Order.js) restricted to the fields the payment
routes read or write: identifier, buyer, status and paymentStatus. -/
structure Order where
  objectId : String
  buyer : String
  status : String
  paymentStatus : String
deriving DecidableEq, Repr

namespace Payment

/-- paymentSchema.methods.markCompleted: unconditionally sets status to
completed and completedAt to the current time, and stores the gateway payload.
The in-memory mutation followed by save() is modelled as a pure record
update. -/
def markCompleted (p : Payment) (now : Millis) (gatewayResponse : GatewayBlob) : Payment :=
  { p with
    status := "completed"
    completedAt := some now
    gateway := { p.gateway with gatewayResponse := some gatewayResponse } }

/-- paymentSchema.methods.markFailed: unconditionally sets status to failed and
failedAt to the current time, and appends a failed entry to the attempts
log. -/
def markFailed (p : Payment) (now : Millis) (errorMessage : String)
    (gatewayResponse : GatewayBlob) : Payment :=
  { p with
    status := "failed"
    failedAt := some now
    attempts := p.attempts ++ [Attempt.mk now "failed" (some errorMessage) (some gatewayResponse)] }

/-- paymentSchema.methods.addAttempt: appends to the attempts log. -/
def addAttempt (p : Payment) (now : Millis) (status : String) (errorMessage : Option String)
    (gatewayResponse : Option GatewayBlob) : Payment :=
  { p with attempts := p.attempts ++ [Attempt.mk now status errorMessage gatewayResponse] }

end Payment

/-- Payment reference generator from the pre-save hook:
PAY_ followed by Date.now(), an underscore, and a random base36 suffix. -/
def mkPaymentId (now : Millis) (rand : String) : String :=
  "PAY_" ++ Nat.repr now ++ "_" ++ rand

/-- Construction of a new Payment as performed by the initiate routes together
with the schema defaults and the pre-save hook: status defaults to pending,
expiresAt defaults to thirty minutes after creation, paymentId is generated
from the clock and the random suffix. -/
def createPayment (objectId orderId userId : String) (amount : Int)
    (currency method : String) (mm : MobileMoneyDetails) (sd : StripeDetails)
    (now : Millis) (rand : String) : Payment :=
  { objectId := objectId
    paymentId := mkPaymentId now rand
    order := orderId
    user := userId
    amount := amount
    currency := currency
    method := method
    status := "pending"
    gateway := { transactionId := none, gatewayResponse := none, gatewayFees := none }
    mobileMoneyDetails := mm
    stripeDetails := sd
    attempts := []
    completedAt := none
    failedAt := none
    createdAt := now
    expiresAt := now + 30 * 60 * 1000 }

/-- Schema enum validator for Payment.currency. -/
def validCurrency (c : String) : Bool :=
  c == "XOF" || c == "USD" || c == "EUR"

/-- Schema enum validator for Payment.method. -/
def validMethod (m : String) : Bool :=
  m == "orange_money" || m == "mtn_money" || m == "paypal" || m == "stripe" ||
    m == "bank_transfer"

/-- The persisted store the route handlers read and write. -/
structure DB where
  payments : List Payment
  orders : List Order
deriving DecidableEq, Repr

/-- Payment.findOne with a paymentId filter. -/
def findPayment (db : DB) (ref : String) : Option Payment :=
  db.payments.find? (fun p => p.paymentId == ref)

/-- Payment.findOne with a stripeDetails.paymentIntentId filter. -/
def findPaymentByIntent (db : DB) (intentId : String) : Option Payment :=
  db.payments.find? (fun p => p.stripeDetails.paymentIntentId == some intentId)

/-- Order.findById. -/
def findOrder (db : DB) (oid : String) : Option Order :=
  db.orders.find? (fun o => o.objectId == oid)

/-- payment.save(): replaces the stored document with the same paymentId, or
inserts the document when it is new. -/
def savePayment (db : DB) (p : Payment) : DB :=
  if db.payments.any (fun q => q.paymentId == p.paymentId) then
    { db with payments := db.payments.map (fun q => if q.paymentId == p.paymentId then p else q) }
  else
    { db with payments := db.payments ++ [p] }

/-- Order schema enum validator for Order.status (models/Order.js). -/
def validOrderStatus (s : String) : Bool :=
  s == "pending" || s == "confirmed" || s == "processing" || s == "shipped" ||
    s == "delivered" || s == "cancelled" || s == "refunded" || s == "disputed"

/-- Order schema enum validator for Order.paymentStatus (models/Order.js):
pending, completed, failed or refunded.  The value paid the payment routes
assign is not in this enum. -/
def validOrderPaymentStatus (s : String) : Bool :=
  s == "pending" || s == "completed" || s == "failed" || s == "refunded"

/-- order.save(): mongoose runs the schema validators on save, so a document
carrying an illegal enum value is rejected with a ValidationError and nothing
is persisted; otherwise the stored document with the same identifier is
replaced, or the document inserted when it is new. -/
def saveOrder (db : DB) (o : Order) : Except Unit DB :=
  if validOrderStatus o.status && validOrderPaymentStatus o.paymentStatus then
    Except.ok
      (if db.orders.any (fun q => q.objectId == o.objectId) then
        { db with orders := db.orders.map (fun q => if q.objectId == o.objectId then o else q) }
      else
        { db with orders := db.orders ++ [o] })
  else
    Except.error ()

/-- Shape of a route response as far as this development observes it: HTTP
status code, the success flag, and the message field. -/
structure HttpResponse where
  statusCode : Nat
  success : Bool
  message : Option String
deriving DecidableEq, Repr

namespace OrangeMoneyAPI

/-- OrangeMoneyAPI.initiatePayment: the token fetch and the pay call either
return the provider response or throw, and the catch block replaces any
transport or auth failure with one fixed Error message. -/
def initiatePayment (transport : Except Unit OrangeInitResp) : Except String OrangeInitResp :=
  match transport with
  | .ok r => .ok r
  | .error _ => .error "Failed to initiate Orange Money payment"

/-- OrangeMoneyAPI.checkPaymentStatus with the analogous catch block. -/
def checkPaymentStatus (transport : Except Unit PollResp) : Except String PollResp :=
  match transport with
  | .ok r => .ok r
  | .error _ => .error "Failed to check Orange Money payment status"

end OrangeMoneyAPI

namespace MTNMoneyAPI

/-- MTNMoneyAPI.requestPayment: generates its own X-Reference-Id transaction
identifier mtn_ Date.now() _ random and performs the requesttopay call; any
transport failure is replaced by one fixed Error message. -/
def requestPayment (now : Millis) (rand : String) (transport : Except Unit Unit) :
    Except String MtnInitResp :=
  match transport with
  | .ok _ => .ok { transactionId := "mtn_" ++ Nat.repr now ++ "_" ++ rand }
  | .error _ => .error "Failed to initiate MTN Money payment"

/-- MTNMoneyAPI.checkPaymentStatus with the analogous catch block. -/
def checkPaymentStatus (transport : Except Unit PollResp) : Except String PollResp :=
  match transport with
  | .ok r => .ok r
  | .error _ => .error "Failed to check MTN Money payment status"

end MTNMoneyAPI

/-- POST /orange-money/initiate (routes/payments.js).  The express-validator
400 path and the authenticateToken middleware run upstream of the handler
body; userId is the authenticated requester, newObjectId the identifier the
database assigns to the inserted document. -/
def orangeMoneyInitiate (db : DB) (now : Millis) (rand newObjectId userId : String)
    (amount : Int) (phoneNumber orderId : String)
    (transport : Except Unit OrangeInitResp) : DB × HttpResponse :=
  match findOrder db orderId with
  | none => (db, { statusCode := 404, success := false, message := some "Order not found" })
  | some order =>
    if order.buyer != userId then
      (db, { statusCode := 404, success := false, message := some "Order not found" })
    else
      let payment := createPayment newObjectId orderId userId amount "XOF" "orange_money"
        { phoneNumber := some phoneNumber, operator := some "orange", reference := none }
        { paymentIntentId := none, chargeId := none, receiptUrl := none } now rand
      let db1 := savePayment db payment
      match OrangeMoneyAPI.initiatePayment transport with
      | .error e =>
        (db1, { statusCode := 500, success := false, message := some e })
      | .ok resp =>
        let payment2 := { payment with
          gateway := { payment.gateway with
            transactionId := resp.transaction_id
            gatewayResponse := some (GatewayBlob.orangeInit resp) }
          status := "processing" }
        (savePayment db1 payment2,
         { statusCode := 200, success := true,
           message := some "Orange Money payment initiated. Please complete the payment on your phone." })

/-- POST /mtn-money/initiate (routes/payments.js), structured exactly like the
Orange Money route; mtnRand is the random suffix of the client-generated
transaction identifier. -/
def mtnMoneyInitiate (db : DB) (now : Millis) (rand mtnRand newObjectId userId : String)
    (amount : Int) (phoneNumber orderId : String)
    (transport : Except Unit Unit) : DB × HttpResponse :=
  match findOrder db orderId with
  | none => (db, { statusCode := 404, success := false, message := some "Order not found" })
  | some order =>
    if order.buyer != userId then
      (db, { statusCode := 404, success := false, message := some "Order not found" })
    else
      let payment := createPayment newObjectId orderId userId amount "XOF" "mtn_money"
        { phoneNumber := some phoneNumber, operator := some "mtn", reference := none }
        { paymentIntentId := none, chargeId := none, receiptUrl := none } now rand
      let db1 := savePayment db payment
      match MTNMoneyAPI.requestPayment now mtnRand transport with
      | .error e =>
        (db1, { statusCode := 500, success := false, message := some e })
      | .ok resp =>
        let payment2 := { payment with
          gateway := { payment.gateway with
            transactionId := some resp.transactionId
            gatewayResponse := some (GatewayBlob.mtnInit resp) }
          status := "processing" }
        (savePayment db1 payment2,
         { statusCode := 200, success := true,
           message := some "MTN Money payment initiated. Please complete the payment on your phone." })

/-- Gateway dispatch inside GET /status/:paymentId: for a mobile money payment
with a stored transaction identifier, or a stripe payment with a stored intent
identifier, the matching client is called (transport outcome explicit);
otherwise gatewayStatus stays null. -/
def pollGatewayDispatch (p : Payment) (transport : Except Unit PollResp) :
    Except Unit (Option PollResp) :=
  if p.method == "orange_money" && p.gateway.transactionId.isSome then
    transport.map some
  else if p.method == "mtn_money" && p.gateway.transactionId.isSome then
    transport.map some
  else if p.method == "stripe" && p.stripeDetails.paymentIntentId.isSome then
    transport.map some
  else
    .ok none

/-- GET /status/:paymentId (routes/payments.js).  On a completed gateway
status for a payment whose stored status is not completed, the handler sets
the payment completed in memory, saves the linked order as paymentStatus paid
and status confirmed, then saves the payment.  Both a thrown gateway call and
a rejected order.save() (paid violates the Order enum) land in the same catch
block: a fixed 500 message, and the payment.save() that follows the order
write is never reached. -/
def checkPaymentStatusRoute (db : DB) (now : Millis) (userId paymentId : String)
    (transport : Except Unit PollResp) : DB × HttpResponse :=
  match findPayment db paymentId with
  | none => (db, { statusCode := 404, success := false, message := some "Payment not found" })
  | some payment =>
    if payment.user != userId then
      (db, { statusCode := 404, success := false, message := some "Payment not found" })
    else
      match pollGatewayDispatch payment transport with
      | .error _ =>
        (db, { statusCode := 500, success := false, message := some "Failed to check payment status" })
      | .ok none => (db, { statusCode := 200, success := true, message := none })
      | .ok (some gs) =>
        let isCompleted := gs.status == "succeeded" || gs.status == "SUCCESSFUL" ||
          gs.status == "completed"
        if isCompleted && payment.status != "completed" then
          let payment2 := { payment with status := "completed", completedAt := some now }
          match findOrder db payment.order with
          | some order =>
            match saveOrder db { order with paymentStatus := "paid", status := "confirmed" } with
            | .error _ =>
              (db, { statusCode := 500, success := false,
                     message := some "Failed to check payment status" })
            | .ok db1 =>
              (savePayment db1 payment2, { statusCode := 200, success := true, message := none })
          | none =>
            (savePayment db payment2, { statusCode := 200, success := true, message := none })
        else
          (db, { statusCode := 200, success := true, message := none })

/-- POST /webhook/orange-money (routes/payments.js): the handler reads
transaction_id, status and reference from the request body, with no
authentication and no signature verification.  On SUCCESS, markCompleted
persists the payment first; the subsequent order.save() with paymentStatus
paid is rejected by the Order enum validator and lands in the catch block,
which answers 500 with the fixed webhook failure message while the payment
completion stays persisted. -/
def orangeMoneyWebhook (db : DB) (now : Millis) (body : OrangeWebhookBody) :
    DB × HttpResponse :=
  match findPayment db body.reference with
  | none => (db, { statusCode := 404, success := false, message := some "Payment not found" })
  | some payment =>
    if body.status == "SUCCESS" then
      let payment2 := payment.markCompleted now (GatewayBlob.orangeHook body)
      let db1 := savePayment db payment2
      match findOrder db1 payment.order with
      | some order =>
        match saveOrder db1 { order with paymentStatus := "paid", status := "confirmed" } with
        | .error _ =>
          (db1, { statusCode := 500, success := false,
                  message := some "Webhook processing failed" })
        | .ok db2 => (db2, { statusCode := 200, success := true, message := none })
      | none => (db1, { statusCode := 200, success := true, message := none })
    else if body.status == "FAILED" then
      (savePayment db (payment.markFailed now "Payment failed" (GatewayBlob.orangeHook body)),
       { statusCode := 200, success := true, message := none })
    else
      (db, { statusCode := 200, success := true, message := none })

/-- An incoming webhook HTTP request: arbitrary headers (which would carry any
signature or credential) together with the parsed JSON body. -/
structure WebhookRequest where
  headers : List (String × String)
  body : OrangeWebhookBody
deriving DecidableEq, Repr

/-- Route entry of the Orange Money webhook: of the whole request, only the
body is consulted. -/
def orangeMoneyWebhookRoute (db : DB) (now : Millis) (req : WebhookRequest) :
    DB × HttpResponse :=
  orangeMoneyWebhook db now req.body

/-- A Stripe webhook event after constructEvent. -/
inductive StripeEvent where
  | paymentIntentSucceeded (intent : StripeIntent)
  | paymentIntentFailed (intent : StripeIntent)
  | otherEvent (eventType : String)
deriving DecidableEq, Repr

/-- Response shape of the Stripe webhook route. -/
structure StripeResp where
  statusCode : Nat
  received : Bool
deriving DecidableEq, Repr

/-- POST /webhook/stripe, event handling after signature verification: the
succeeded and failed payment-intent events are handled; an unknown intent
identifier leaves the store untouched and still responds 200 received; any
other event type is ignored.  The switch body has no try/catch of its own, so
the rejected order.save() (paid violates the Order enum) propagates through
asyncHandler to the error middleware, which answers 500 with no received
acknowledgement; the payment completion saved before it stays persisted. -/
def stripeWebhookEvent (db : DB) (now : Millis) (event : StripeEvent) : DB × StripeResp :=
  match event with
  | .paymentIntentSucceeded intent =>
    match findPaymentByIntent db intent.id with
    | none => (db, { statusCode := 200, received := true })
    | some payment =>
      let payment2 := payment.markCompleted now (GatewayBlob.stripeIntent intent)
      let db1 := savePayment db payment2
      match findOrder db1 payment.order with
      | some order =>
        match saveOrder db1 { order with paymentStatus := "paid", status := "confirmed" } with
        | .error _ => (db1, { statusCode := 500, received := false })
        | .ok db2 => (db2, { statusCode := 200, received := true })
      | none => (db1, { statusCode := 200, received := true })
  | .paymentIntentFailed intent =>
    match findPaymentByIntent db intent.id with
    | none => (db, { statusCode := 200, received := true })
    | some payment =>
      (savePayment db (payment.markFailed now "Payment failed" (GatewayBlob.stripeIntent intent)),
       { statusCode := 200, received := true })
  | .otherEvent _ => (db, { statusCode := 200, received := true })

/-- Signature verification wrapper of the Stripe route: constructEvent either
yields the event or throws, in which case the handler responds 400 and nothing
is mutated. -/
def stripeWebhookRoute (db : DB) (now : Millis) (sigCheck : Except String StripeEvent) :
    DB × StripeResp :=
  match sigCheck with
  | .error _ => (db, { statusCode := 400, received := false })
  | .ok event => stripeWebhookEvent db now event

/-- Deletion criterion of the TTL index
paymentSchema.index on expiresAt with expireAfterSeconds 0: any document
whose expiresAt lies at or before the current time, regardless of status. -/
def ttlEligible (p : Payment) (now : Millis) : Bool :=
  decide (p.expiresAt ≤ now)

/-- The sweep the database TTL monitor performs: delete every eligible
document. -/
def ttlSweep (db : DB) (now : Millis) : DB :=
  { db with payments := db.payments.filter (fun p => !(ttlEligible p now)) }

/-- Terminal payment statuses (completed, failed, cancelled, refunded). -/
def isTerminalStatus (s : String) : Bool :=
  s == "completed" || s == "failed" || s == "cancelled" || s == "refunded"

/-- Lowercase hexadecimal format of a database object identifier. -/
def isObjectIdHex (s : String) : Bool :=
  s.length == 24 && s.data.all (fun c => "0123456789abcdef".data.contains c)

/-- Empty gateway sub-document, the state of a fresh payment. -/
def emptyGateway : GatewayInfo :=
  { transactionId := none, gatewayResponse := none, gatewayFees := none }

/-- Empty stripe details sub-document. -/
def noStripe : StripeDetails :=
  { paymentIntentId := none, chargeId := none, receiptUrl := none }

/-- Concrete processing Orange Money payment used to evaluate handlers. -/
def basePayment : Payment :=
  { objectId := "64b000000000000000000001"
    paymentId := "PAY_1000_abc123def"
    order := "64a000000000000000000001"
    user := "649000000000000000000001"
    amount := 60000
    currency := "XOF"
    method := "orange_money"
    status := "processing"
    gateway := { transactionId := some "om-tx-1", gatewayResponse := none, gatewayFees := none }
    mobileMoneyDetails := MobileMoneyDetails.mk (some "+2250700000001") (some "orange") none
    stripeDetails := noStripe
    attempts := []
    completedAt := none
    failedAt := none
    createdAt := 1000
    expiresAt := 1000 + 30 * 60 * 1000 }

/-- Concrete payment already in the terminal failed state. -/
def failedPayment : Payment :=
  { basePayment with paymentId := "PAY_1000_failednow", status := "failed", failedAt := some 2000 }

/-- Concrete payment already in the terminal completed state. -/
def completedPayment : Payment :=
  { basePayment with
    paymentId := "PAY_1000_successok"
    status := "completed"
    completedAt := some 2000 }

/-- Concrete gateway payload used in the examples. -/
def sampleBlob : GatewayBlob :=
  GatewayBlob.orangeHook
    { transaction_id := some "om-tx-9", status := "SUCCESS", reference := "PAY_1000_failednow" }

/-- Concrete order that has already progressed to shipped, linked to
basePayment. -/
def shippedOrder : Order :=
  { objectId := "64a000000000000000000001", buyer := "649000000000000000000001",
    status := "shipped", paymentStatus := "pending" }

/-- Concrete order that is already paid, owned by the requesting user. -/
def paidOrder : Order :=
  { objectId := "64a000000000000000000002", buyer := "649000000000000000000001",
    status := "confirmed", paymentStatus := "paid" }

/-- Store holding the processing payment and its shipped order. -/
def pollDb : DB := { payments := [basePayment], orders := [shippedOrder] }

/-- Numeric value of a decimal digit character. -/
def digitVal (c : Char) : Nat :=
  c.toNat - Char.toNat (Char.ofNat 48)

/-- Value of a decimal digit string. -/
def digitsVal (l : List Char) : Nat :=
  l.foldl (fun a c => a * 10 + digitVal c) 0

/-- Replacing a found payment by paymentId makes the replacement the found
one. -/
theorem find?_update_payment {l : List Payment} {ref : String} {a : Payment} (b : Payment)
    (hfind : List.find? (fun q => q.paymentId == ref) l = some a)
    (hb : b.paymentId = ref) :
    List.find? (fun q => q.paymentId == ref)
      (l.map (fun q => if q.paymentId == b.paymentId then b else q)) = some b := by
  induction l with
  | nil => simp at hfind
  | cons x xs ih =>
    by_cases hx : x.paymentId = ref
    · have hcond : (x.paymentId == b.paymentId) = true := by simp [hx, hb]
      simp only [List.map_cons, hcond, if_true]
      exact List.find?_cons_of_pos _ (by simp [hb])
    · have hcond : (x.paymentId == b.paymentId) = false := by simp [hb, hx]
      have hfind2 : List.find? (fun q => q.paymentId == ref) xs = some a := by
        rwa [List.find?_cons_of_neg _ (by simpa using hx)] at hfind
      simp only [List.map_cons, hcond, Bool.false_eq_true, if_false]
      rw [List.find?_cons_of_neg _ (by simpa using hx)]
      exact ih hfind2

/-- savePayment leaves the orders untouched. -/
theorem savePayment_orders (db : DB) (p : Payment) : (savePayment db p).orders = db.orders := by
  unfold savePayment
  split <;> rfl

/-- saveOrder rejects any order whose paymentStatus violates the schema
enum, and nothing is persisted. -/
theorem saveOrder_invalid_paymentStatus (db : DB) (o : Order)
    (h : validOrderPaymentStatus o.paymentStatus = false) :
    saveOrder db o = Except.error () := by
  simp [saveOrder, h]

/-- A successful saveOrder leaves the payments untouched. -/
theorem saveOrder_ok_payments {db : DB} {o : Order} {db2 : DB}
    (h : saveOrder db o = Except.ok db2) : db2.payments = db.payments := by
  unfold saveOrder at h
  split at h
  · injection h with h2
    rw [← h2]
    split <;> rfl
  · exact Except.noConfusion h

/-- Saving a payment that replaces a found one makes it the found one. -/
theorem findPayment_savePayment {db : DB} {ref : String} {a : Payment} (b : Payment)
    (h : findPayment db ref = some a) (hb : b.paymentId = a.paymentId) :
    findPayment (savePayment db b) ref = some b := by
  have h2 : List.find? (fun q => q.paymentId == ref) db.payments = some a := h
  have hp := List.find?_some h2
  have hk : a.paymentId = ref := by simpa using hp
  have hbr : b.paymentId = ref := hb.trans hk
  have hany : (db.payments.any fun q => q.paymentId == b.paymentId) = true := by
    refine List.any_eq_true.2 ⟨a, List.mem_of_find?_eq_some h2, ?_⟩
    simp [hk, hbr]
  show List.find? (fun q => q.paymentId == ref) (savePayment db b).payments = some b
  simp only [savePayment, hany, if_true]
  exact find?_update_payment b h2 hbr

/-- Saving a payment does not affect order lookups. -/
theorem findOrder_savePayment (db : DB) (p : Payment) (k : String) :
    findOrder (savePayment db p) k = findOrder db k := by
  unfold findOrder
  rw [savePayment_orders]

/-- A saved payment is in the store afterwards. -/
theorem self_mem_savePayment (db : DB) (p : Payment) : p ∈ (savePayment db p).payments := by
  unfold savePayment
  split
  · next h =>
    rcases List.any_eq_true.1 h with ⟨q, hq, hpq⟩
    exact List.mem_map.2 ⟨q, hq, by simp [hpq]⟩
  · exact List.mem_append_right _ (List.mem_singleton.2 rfl)

/-- digitVal inverts Nat.digitChar on decimal digits. -/
theorem digitVal_digitChar (m : Nat) (h : m < 10) : digitVal (Nat.digitChar m) = m := by
  interval_cases m <;> rfl

/-- Decimal digit characters are never an underscore. -/
theorem digitChar_ne_underscore (m : Nat) (h : m < 10) :
    Nat.digitChar m ≠ Char.ofNat 95 := by
  interval_cases m <;> decide

/-- Digits produced by toDigitsCore land in front of the accumulator. -/
theorem toDigitsCore_acc (fuel : Nat) :
    ∀ (n : Nat) (acc : List Char),
      Nat.toDigitsCore 10 fuel n acc = Nat.toDigitsCore 10 fuel n [] ++ acc := by
  induction fuel with
  | zero =>
    intro n acc
    simp [Nat.toDigitsCore]
  | succ fuel ih =>
    intro n acc
    simp only [Nat.toDigitsCore]
    by_cases h : n / 10 = 0
    · simp [h]
    · simp only [h, if_false]
      rw [ih (n / 10) [Nat.digitChar (n % 10)], ih (n / 10) (Nat.digitChar (n % 10) :: acc)]
      simp

/-- Appending one digit multiplies the value by ten and adds the digit. -/
theorem digitsVal_append_singleton (l : List Char) (c : Char) :
    digitsVal (l ++ [c]) = digitsVal l * 10 + digitVal c := by
  simp [digitsVal, List.foldl_append]

/-- The digit string of n evaluates back to n. -/
theorem digitsVal_toDigitsCore (fuel : Nat) :
    ∀ n : Nat, n < fuel → digitsVal (Nat.toDigitsCore 10 fuel n []) = n := by
  induction fuel with
  | zero =>
    intro n h
    exact absurd h (Nat.not_lt_zero n)
  | succ fuel ih =>
    intro n h
    simp only [Nat.toDigitsCore]
    by_cases h0 : n / 10 = 0
    · have hn : n < 10 := by omega
      simp only [h0, if_true]
      have : digitsVal [Nat.digitChar (n % 10)] = digitVal (Nat.digitChar (n % 10)) := by
        simp [digitsVal]
      rw [this, digitVal_digitChar (n % 10) (Nat.mod_lt _ (by norm_num))]
      omega
    · have hlt : n / 10 < fuel := by
        have hpos : 0 < n := by omega
        have := Nat.div_lt_self hpos (by norm_num : 1 < 10)
        omega
      simp only [h0, if_false]
      rw [toDigitsCore_acc, digitsVal_append_singleton, ih _ hlt,
        digitVal_digitChar _ (Nat.mod_lt _ (by norm_num))]
      omega

/-- No underscore occurs among the digits of toDigitsCore. -/
theorem underscore_not_in_toDigitsCore (fuel : Nat) :
    ∀ (n : Nat) (acc : List Char), Char.ofNat 95 ∉ acc →
      Char.ofNat 95 ∉ Nat.toDigitsCore 10 fuel n acc := by
  induction fuel with
  | zero =>
    intro n acc h
    simpa [Nat.toDigitsCore] using h
  | succ fuel ih =>
    intro n acc h
    have hcons : Char.ofNat 95 ∉ Nat.digitChar (n % 10) :: acc := by
      intro hmem
      rcases List.mem_cons.1 hmem with h1 | h1
      · exact digitChar_ne_underscore (n % 10) (Nat.mod_lt _ (by norm_num)) h1.symm
      · exact h h1
    simp only [Nat.toDigitsCore]
    by_cases h0 : n / 10 = 0
    · simpa [h0] using hcons
    · simp only [h0, if_false]
      exact ih (n / 10) _ hcons

/-- No underscore occurs in the decimal representation of a natural
number. -/
theorem underscore_not_in_repr (n : Nat) : Char.ofNat 95 ∉ (Nat.repr n).data := by
  have h := underscore_not_in_toDigitsCore (n + 1) n [] (by simp)
  simpa [Nat.repr, Nat.toDigits, List.asString] using h

/-- Decimal representation is injective. -/
theorem nat_repr_inj {a b : Nat} (h : Nat.repr a = Nat.repr b) : a = b := by
  have hdata : Nat.toDigits 10 a = Nat.toDigits 10 b := by
    have h2 := congrArg String.data h
    simpa [Nat.repr, List.asString] using h2
  have ha : digitsVal (Nat.toDigits 10 a) = a :=
    digitsVal_toDigitsCore (a + 1) a (Nat.lt_succ_self a)
  have hb : digitsVal (Nat.toDigits 10 b) = b :=
    digitsVal_toDigitsCore (b + 1) b (Nat.lt_succ_self b)
  rw [← ha, ← hb, hdata]

/-- Splitting at a separator absent from both halves is unambiguous. -/
theorem append_sep_inj {a b c d : List Char} (ha : Char.ofNat 95 ∉ a)
    (hb : Char.ofNat 95 ∉ b) (h : a ++ Char.ofNat 95 :: c = b ++ Char.ofNat 95 :: d) :
    a = b ∧ c = d := by
  induction a generalizing b with
  | nil =>
    cases b with
    | nil => simpa using h
    | cons y ys =>
      exfalso
      have h1 : Char.ofNat 95 = y := by
        have := congrArg (fun l => l.head?) h
        simpa using this
      exact hb (h1 ▸ List.mem_cons_self y ys)
  | cons x xs ih =>
    cases b with
    | nil =>
      exfalso
      have h1 : x = Char.ofNat 95 := by
        have := congrArg (fun l => l.head?) h
        simpa using this
      exact ha (h1 ▸ List.mem_cons_self x xs)
    | cons y ys =>
      have hx : x = y := by
        have := congrArg (fun l => l.head?) h
        simpa using this
      have htail : xs ++ Char.ofNat 95 :: c = ys ++ Char.ofNat 95 :: d := by
        have := congrArg (fun l => l.tail) h
        simpa using this
      have ih2 := ih (fun hm => ha (List.mem_cons_of_mem x hm))
        (fun hm => hb (List.mem_cons_of_mem y hm)) htail
      exact ⟨by rw [hx, ih2.1], ih2.2⟩

/-- Strings with equal character data are equal. -/
theorem string_data_ext {s t : String} (h : s.data = t.data) : s = t := by
  cases s
  cases t
  simp only at h
  rw [h]

/-- The payment reference generator is injective: the timestamp block is
delimited by the first underscore after the PAY prefix, and decimal digits
contain no underscore. -/
theorem mkPaymentId_inj {t1 t2 : Nat} {r1 r2 : String}
    (h : mkPaymentId t1 r1 = mkPaymentId t2 r2) : t1 = t2 ∧ r1 = r2 := by
  have hd := congrArg String.data h
  simp only [mkPaymentId, String.data_append] at hd
  have hd2 : (Nat.repr t1).data ++ Char.ofNat 95 :: r1.data =
      (Nat.repr t2).data ++ Char.ofNat 95 :: r2.data := by
    have hsplit : ∀ (s r : String), ("PAY_".data ++ s.data ++ "_".data) ++ r.data =
        Char.ofNat 80 :: Char.ofNat 65 :: Char.ofNat 89 :: Char.ofNat 95 ::
          (s.data ++ Char.ofNat 95 :: r.data) := by
      intro s r
      simp
    rw [hsplit, hsplit] at hd
    simpa using hd
  rcases append_sep_inj (underscore_not_in_repr t1) (underscore_not_in_repr t2) hd2 with
    ⟨hrepr, hr⟩
  exact ⟨nat_repr_inj (string_data_ext hrepr), string_data_ext hr⟩

/-- The generated payment reference starts with the letter P. -/
theorem mkPaymentId_head (t : Nat) (r : String) :
    (mkPaymentId t r).data.head? = some (Char.ofNat 80) := by
  simp [mkPaymentId, String.data_append]

/-- Elements of the store after a save: the saved document or an old one. -/
theorem mem_savePayment_elim {db : DB} {p q : Payment}
    (h : q ∈ (savePayment db p).payments) : q = p ∨ q ∈ db.payments := by
  unfold savePayment at h
  split at h
  · rcases List.mem_map.1 h with ⟨x, hx, hxq⟩
    by_cases hkey : x.paymentId == p.paymentId
    · left
      simp only [hkey, if_true] at hxq
      exact hxq.symm
    · right
      simp only [hkey, if_false] at hxq  -- hmm hkey is Bool hypothesis
      exact hxq ▸ hx
  · rcases List.mem_append.1 h with h1 | h1
    · right; exact h1
    · left; simpa using h1

/-- C1 counterexample: applying markCompleted to a failed Payment rewrites the
stored status to completed, so a later contradictory terminal observation does
change the stored status and is not rejected. -/
theorem c1_counterexample :
    failedPayment.status = "failed" ∧
    (failedPayment.markCompleted 3000 sampleBlob).status = "completed" :=
  ⟨rfl, rfl⟩

/-- C1 (amended): the ledger methods enforce last-terminal-write-wins, not
first-terminal-wins: markCompleted on a failed Payment unconditionally
overwrites the status to completed, raising no error and logging no attempt,
and markFailed on a completed Payment overwrites the status to failed while
appending a failed attempt entry. -/
theorem c1_last_terminal_write_wins (p q : Payment) (t t2 : Millis) (g g2 : GatewayBlob)
    (e : String) (_hp : p.status = "failed") (_hq : q.status = "completed") :
    (p.markCompleted t g).status = "completed" ∧
    (p.markCompleted t g).completedAt = some t ∧
    (p.markCompleted t g).attempts = p.attempts ∧
    (q.markFailed t2 e g2).status = "failed" ∧
    (q.markFailed t2 e g2).failedAt = some t2 ∧
    (q.markFailed t2 e g2).attempts =
      q.attempts ++ [Attempt.mk t2 "failed" (some e) (some g2)] :=
  ⟨rfl, rfl, rfl, rfl, rfl, rfl⟩

/-- C1 amended claim evaluated at concrete terminal payments. -/
theorem c1_last_terminal_write_wins_witness :
    failedPayment.status = "failed" ∧ completedPayment.status = "completed" ∧
    ((failedPayment.markCompleted 3000 sampleBlob).status = "completed" ∧
     (failedPayment.markCompleted 3000 sampleBlob).completedAt = some 3000 ∧
     (failedPayment.markCompleted 3000 sampleBlob).attempts = failedPayment.attempts ∧
     (completedPayment.markFailed 4000 "late decline" sampleBlob).status = "failed" ∧
     (completedPayment.markFailed 4000 "late decline" sampleBlob).failedAt = some 4000 ∧
     (completedPayment.markFailed 4000 "late decline" sampleBlob).attempts =
       completedPayment.attempts ++
         [Attempt.mk 4000 "failed" (some "late decline") (some sampleBlob)]) :=
  ⟨rfl, rfl, c1_last_terminal_write_wins failedPayment completedPayment 3000 4000
    sampleBlob sampleBlob "late decline" rfl rfl⟩

/-- C7 counterexample: a second markCompleted at a later clock reading moves
completedAt from the first timestamp to the second. -/
theorem c7_counterexample :
    ((basePayment.markCompleted 5 sampleBlob).markCompleted 9 sampleBlob).completedAt = some 9 ∧
    (basePayment.markCompleted 5 sampleBlob).completedAt = some 5 ∧
    (9 : Millis) ≠ 5 :=
  ⟨rfl, rfl, by decide⟩

/-- C7 (amended): a second markCompleted on an already completed Payment keeps
the terminal status and appends no attempt entry, but overwrites completedAt
with the time of the second call instead of keeping the first timestamp. -/
theorem c7_markCompleted_second_call (p : Payment) (t1 t2 : Millis) (g1 g2 : GatewayBlob) :
    ((p.markCompleted t1 g1).markCompleted t2 g2).status = (p.markCompleted t1 g1).status ∧
    ((p.markCompleted t1 g1).markCompleted t2 g2).completedAt = some t2 ∧
    ((p.markCompleted t1 g1).markCompleted t2 g2).attempts = p.attempts :=
  ⟨rfl, rfl, rfl⟩

/-- C5: the TTL index criterion is expiresAt alone, so a completed Payment
thirty minutes after creation satisfies it and the sweep deletes it, although
the claim reserves deletion for expired records with no terminal status. -/
theorem c5_ttl_purges_completed_payment :
    completedPayment.status = "completed" ∧
    isTerminalStatus completedPayment.status = true ∧
    ttlEligible completedPayment 1801000 = true ∧
    ttlSweep (DB.mk [completedPayment] []) 1801000 = DB.mk [] [] :=
  ⟨rfl, by decide, by decide, by decide⟩

/-- C9: creating a Payment from a valid amount, currency and method yields
status pending and an expiry exactly thirty minutes after creation; the
generated reference is injective in the clock reading and random suffix, and
differs from the hexadecimal database identifier. -/
theorem c9_createPayment_shape (objectId orderId userId rand rand2 : String)
    (amount : Int) (currency method : String) (now now2 : Millis)
    (mm : MobileMoneyDetails) (sd : StripeDetails)
    (_hamount : 0 ≤ amount) (_hcur : validCurrency currency = true)
    (_hmeth : validMethod method = true) (hoid : isObjectIdHex objectId = true) :
    (createPayment objectId orderId userId amount currency method mm sd now rand).status =
      "pending" ∧
    (createPayment objectId orderId userId amount currency method mm sd now rand).expiresAt =
      (createPayment objectId orderId userId amount currency method mm sd now rand).createdAt
        + 30 * 60 * 1000 ∧
    (mkPaymentId now rand = mkPaymentId now2 rand2 → now = now2 ∧ rand = rand2) ∧
    (createPayment objectId orderId userId amount currency method mm sd now rand).paymentId ≠
      (createPayment objectId orderId userId amount currency method mm sd now rand).objectId := by
  refine ⟨rfl, rfl, fun h => mkPaymentId_inj h, ?_⟩
  intro heq
  simp only [createPayment] at heq
  have hh := mkPaymentId_head now rand
  rw [heq] at hh
  have hall : objectId.data.all (fun c => "0123456789abcdef".data.contains c) = true := by
    unfold isObjectIdHex at hoid
    simp only [Bool.and_eq_true] at hoid
    exact hoid.2
  cases hdata : objectId.data with
  | nil =>
    rw [hdata] at hh
    simp at hh
  | cons c rest =>
    rw [hdata] at hh hall
    have hc : c = Char.ofNat 80 := by simpa using hh
    have hcpred : ("0123456789abcdef".data.contains c) = true := by
      simp only [List.all_cons, Bool.and_eq_true] at hall
      exact hall.1
    rw [hc] at hcpred
    exact absurd hcpred (by decide)

/-- C9 evaluated at a concrete valid creation. -/
theorem c9_createPayment_shape_witness :
    0 ≤ (60000 : Int) ∧ validCurrency "XOF" = true ∧ validMethod "orange_money" = true ∧
    isObjectIdHex "64b000000000000000000001" = true ∧
    ((createPayment "64b000000000000000000001" "64a000000000000000000001"
        "649000000000000000000001" 60000 "XOF" "orange_money"
        (MobileMoneyDetails.mk none none none) noStripe 1000 "abc123def").status = "pending" ∧
     (createPayment "64b000000000000000000001" "64a000000000000000000001"
        "649000000000000000000001" 60000 "XOF" "orange_money"
        (MobileMoneyDetails.mk none none none) noStripe 1000 "abc123def").expiresAt =
       (createPayment "64b000000000000000000001" "64a000000000000000000001"
        "649000000000000000000001" 60000 "XOF" "orange_money"
        (MobileMoneyDetails.mk none none none) noStripe 1000 "abc123def").createdAt
         + 30 * 60 * 1000 ∧
     (mkPaymentId 1000 "abc123def" = mkPaymentId 2000 "zzzzzzzzz" →
       (1000 : Millis) = 2000 ∧ "abc123def" = "zzzzzzzzz") ∧
     (createPayment "64b000000000000000000001" "64a000000000000000000001"
        "649000000000000000000001" 60000 "XOF" "orange_money"
        (MobileMoneyDetails.mk none none none) noStripe 1000 "abc123def").paymentId ≠
       (createPayment "64b000000000000000000001" "64a000000000000000000001"
        "649000000000000000000001" 60000 "XOF" "orange_money"
        (MobileMoneyDetails.mk none none none) noStripe 1000 "abc123def").objectId) :=
  ⟨by decide, by decide, by decide, by decide,
   c9_createPayment_shape "64b000000000000000000001" "64a000000000000000000001"
     "649000000000000000000001" "abc123def" "zzzzzzzzz" 60000 "XOF" "orange_money" 1000 2000
     (MobileMoneyDetails.mk none none none) noStripe
     (by decide) (by decide) (by decide) (by decide)⟩

/-- C8 counterexample: the Orange Money webhook answers an unknown reference
with a 404 error response, not with a no-op success. -/
theorem c8_counterexample :
    (orangeMoneyWebhook (DB.mk [] []) 0 (OrangeWebhookBody.mk none "SUCCESS" "UNKNOWN")).2 =
      HttpResponse.mk 404 false (some "Payment not found") :=
  rfl

/-- C8 (amended): a webhook delivery whose reference or intent identifier
matches no stored Payment mutates neither store; the Stripe webhook answers it
as a no-op 200 received, but the Orange Money webhook answers 404 with
success false, which webhook retry semantics treat as an error. -/
theorem c8_unknown_reference (db : DB) (now : Millis) (body : OrangeWebhookBody)
    (intent : StripeIntent)
    (h1 : findPayment db body.reference = none)
    (h2 : findPaymentByIntent db intent.id = none) :
    orangeMoneyWebhook db now body =
      (db, HttpResponse.mk 404 false (some "Payment not found")) ∧
    stripeWebhookEvent db now (StripeEvent.paymentIntentSucceeded intent) =
      (db, StripeResp.mk 200 true) := by
  constructor
  · simp [orangeMoneyWebhook, h1]
  · simp [stripeWebhookEvent, h2]

/-- C8 amended claim evaluated on an empty store. -/
theorem c8_unknown_reference_witness :
    findPayment (DB.mk [] []) "UNKNOWN" = none ∧
    findPaymentByIntent (DB.mk [] []) "pi_unknown" = none ∧
    (orangeMoneyWebhook (DB.mk [] []) 7 (OrangeWebhookBody.mk none "FAILED" "UNKNOWN") =
      (DB.mk [] [], HttpResponse.mk 404 false (some "Payment not found")) ∧
     stripeWebhookEvent (DB.mk [] []) 7
       (StripeEvent.paymentIntentSucceeded (StripeIntent.mk "pi_unknown" "succeeded")) =
       (DB.mk [] [], StripeResp.mk 200 true)) :=
  ⟨rfl, rfl, c8_unknown_reference (DB.mk [] []) 7
    (OrangeWebhookBody.mk none "FAILED" "UNKNOWN") (StripeIntent.mk "pi_unknown" "succeeded")
    rfl rfl⟩

/-- C3 counterexample: after a failed gateway initiation the stored audit
record is still pending, not failed. -/
theorem c3_counterexample :
    ((orangeMoneyInitiate (DB.mk [] [shippedOrder]) 7000 "r4nd0m001"
        "64b000000000000000000002" "649000000000000000000001" 60000 "+2250700000001"
        "64a000000000000000000001" (Except.error ())).1.payments.map Payment.status) =
      ["pending"] :=
  rfl

/-- C3 (amended): when the gateway initiation call fails, both mobile money
initiate routes surface a synchronous 500 error carrying the gateway message
and leave the orders untouched, but the just-created Payment audit record
remains in status pending: it is not transitioned to failed. -/
theorem c3_initiation_failure (db : DB) (now : Millis)
    (rand mtnRand newId newId2 uid : String) (amount : Int) (phone orderId : String)
    (o : Order) (horder : findOrder db orderId = some o) (hbuyer : o.buyer = uid) :
    orangeMoneyInitiate db now rand newId uid amount phone orderId (Except.error ()) =
      (savePayment db (createPayment newId orderId uid amount "XOF" "orange_money"
         (MobileMoneyDetails.mk (some phone) (some "orange") none) noStripe now rand),
       HttpResponse.mk 500 false (some "Failed to initiate Orange Money payment")) ∧
    (createPayment newId orderId uid amount "XOF" "orange_money"
       (MobileMoneyDetails.mk (some phone) (some "orange") none) noStripe now rand).status =
      "pending" ∧
    (orangeMoneyInitiate db now rand newId uid amount phone orderId
       (Except.error ())).1.orders = db.orders ∧
    mtnMoneyInitiate db now rand mtnRand newId2 uid amount phone orderId (Except.error ()) =
      (savePayment db (createPayment newId2 orderId uid amount "XOF" "mtn_money"
         (MobileMoneyDetails.mk (some phone) (some "mtn") none) noStripe now rand),
       HttpResponse.mk 500 false (some "Failed to initiate MTN Money payment")) := by
  have hb : (o.buyer != uid) = false := by simp [hbuyer]
  have h1 : orangeMoneyInitiate db now rand newId uid amount phone orderId (Except.error ()) =
      (savePayment db (createPayment newId orderId uid amount "XOF" "orange_money"
         (MobileMoneyDetails.mk (some phone) (some "orange") none) noStripe now rand),
       HttpResponse.mk 500 false (some "Failed to initiate Orange Money payment")) := by
    simp [orangeMoneyInitiate, horder, hb, OrangeMoneyAPI.initiatePayment, noStripe]
  have h4 : mtnMoneyInitiate db now rand mtnRand newId2 uid amount phone orderId
        (Except.error ()) =
      (savePayment db (createPayment newId2 orderId uid amount "XOF" "mtn_money"
         (MobileMoneyDetails.mk (some phone) (some "mtn") none) noStripe now rand),
       HttpResponse.mk 500 false (some "Failed to initiate MTN Money payment")) := by
    simp [mtnMoneyInitiate, horder, hb, MTNMoneyAPI.requestPayment, noStripe]
  refine ⟨h1, rfl, ?_, h4⟩
  rw [h1]
  exact savePayment_orders db _

/-- C3 amended claim evaluated at a concrete store. -/
theorem c3_initiation_failure_witness :
    findOrder (DB.mk [] [shippedOrder]) "64a000000000000000000001" = some shippedOrder ∧
    shippedOrder.buyer = "649000000000000000000001" ∧
    (orangeMoneyInitiate (DB.mk [] [shippedOrder]) 7000 "r4nd0m001"
        "64b000000000000000000002" "649000000000000000000001" 60000 "+2250700000001"
        "64a000000000000000000001" (Except.error ()) =
      (savePayment (DB.mk [] [shippedOrder]) (createPayment "64b000000000000000000002"
         "64a000000000000000000001" "649000000000000000000001" 60000 "XOF" "orange_money"
         (MobileMoneyDetails.mk (some "+2250700000001") (some "orange") none) noStripe
         7000 "r4nd0m001"),
       HttpResponse.mk 500 false (some "Failed to initiate Orange Money payment")) ∧
     (createPayment "64b000000000000000000002" "64a000000000000000000001"
        "649000000000000000000001" 60000 "XOF" "orange_money"
        (MobileMoneyDetails.mk (some "+2250700000001") (some "orange") none) noStripe
        7000 "r4nd0m001").status = "pending" ∧
     (orangeMoneyInitiate (DB.mk [] [shippedOrder]) 7000 "r4nd0m001"
        "64b000000000000000000002" "649000000000000000000001" 60000 "+2250700000001"
        "64a000000000000000000001" (Except.error ())).1.orders =
       (DB.mk [] [shippedOrder]).orders ∧
     mtnMoneyInitiate (DB.mk [] [shippedOrder]) 7000 "r4nd0m001" "mtnr4nd01"
        "64b000000000000000000003" "649000000000000000000001" 60000 "+2250700000001"
        "64a000000000000000000001" (Except.error ()) =
      (savePayment (DB.mk [] [shippedOrder]) (createPayment "64b000000000000000000003"
         "64a000000000000000000001" "649000000000000000000001" 60000 "XOF" "mtn_money"
         (MobileMoneyDetails.mk (some "+2250700000001") (some "mtn") none) noStripe
         7000 "r4nd0m001"),
       HttpResponse.mk 500 false (some "Failed to initiate MTN Money payment"))) :=
  ⟨rfl, rfl, c3_initiation_failure (DB.mk [] [shippedOrder]) 7000 "r4nd0m001" "mtnr4nd01"
    "64b000000000000000000002" "64b000000000000000000003" "649000000000000000000001" 60000
    "+2250700000001" "64a000000000000000000001" shippedOrder rfl rfl⟩

/-- C6 counterexample: an initiation for an already paid order succeeds with a
200 response and creates a new Payment record. -/
theorem c6_counterexample :
    paidOrder.paymentStatus = "paid" ∧
    (orangeMoneyInitiate (DB.mk [] [paidOrder]) 9000 "r4nd0m002"
        "64b000000000000000000004" "649000000000000000000001" 5000 "+2250700000001"
        "64a000000000000000000002"
        (Except.ok (OrangeInitResp.mk (some "om-tx-7") none))).2.statusCode = 200 ∧
    (orangeMoneyInitiate (DB.mk [] [paidOrder]) 9000 "r4nd0m002"
        "64b000000000000000000004" "649000000000000000000001" 5000 "+2250700000001"
        "64a000000000000000000002"
        (Except.ok (OrangeInitResp.mk (some "om-tx-7") none))).1.payments.length = 1 :=
  ⟨rfl, rfl, rfl⟩

/-- C6 (amended): the initiate route checks only that the order exists and
belongs to the requester; an order whose paymentStatus is already paid is not
rejected, and a new Payment in status processing is stored for it. -/
theorem c6_paid_order_accepted (db : DB) (now : Millis) (rand newId uid : String)
    (amount : Int) (phone orderId : String) (o : Order) (resp : OrangeInitResp)
    (horder : findOrder db orderId = some o) (hbuyer : o.buyer = uid)
    (_hpaid : o.paymentStatus = "paid") :
    (orangeMoneyInitiate db now rand newId uid amount phone orderId (Except.ok resp)).2 =
      HttpResponse.mk 200 true
        (some "Orange Money payment initiated. Please complete the payment on your phone.") ∧
    ((orangeMoneyInitiate db now rand newId uid amount phone orderId
        (Except.ok resp)).1.payments.any
      (fun q => q.paymentId == mkPaymentId now rand && q.status == "processing")) = true := by
  have hb : (o.buyer != uid) = false := by simp [hbuyer]
  have hres : orangeMoneyInitiate db now rand newId uid amount phone orderId
        (Except.ok resp) =
      (savePayment
        (savePayment db (createPayment newId orderId uid amount "XOF" "orange_money"
          (MobileMoneyDetails.mk (some phone) (some "orange") none) noStripe now rand))
        { createPayment newId orderId uid amount "XOF" "orange_money"
            (MobileMoneyDetails.mk (some phone) (some "orange") none) noStripe now rand with
          gateway := GatewayInfo.mk resp.transaction_id
            (some (GatewayBlob.orangeInit resp)) none
          status := "processing" },
       HttpResponse.mk 200 true
         (some "Orange Money payment initiated. Please complete the payment on your phone.")) := by
    simp [orangeMoneyInitiate, horder, hb, OrangeMoneyAPI.initiatePayment, noStripe,
      createPayment]
  rw [hres]
  refine ⟨rfl, ?_⟩
  refine List.any_eq_true.2 ⟨_, self_mem_savePayment _ _, ?_⟩
  simp [createPayment]

/-- C6 amended claim evaluated at a concrete paid order. -/
theorem c6_paid_order_accepted_witness :
    findOrder (DB.mk [] [paidOrder]) "64a000000000000000000002" = some paidOrder ∧
    paidOrder.buyer = "649000000000000000000001" ∧
    paidOrder.paymentStatus = "paid" ∧
    ((orangeMoneyInitiate (DB.mk [] [paidOrder]) 9000 "r4nd0m002"
        "64b000000000000000000004" "649000000000000000000001" 5000 "+2250700000001"
        "64a000000000000000000002"
        (Except.ok (OrangeInitResp.mk (some "om-tx-7") none))).2 =
      HttpResponse.mk 200 true
        (some "Orange Money payment initiated. Please complete the payment on your phone.") ∧
     ((orangeMoneyInitiate (DB.mk [] [paidOrder]) 9000 "r4nd0m002"
        "64b000000000000000000004" "649000000000000000000001" 5000 "+2250700000001"
        "64a000000000000000000002"
        (Except.ok (OrangeInitResp.mk (some "om-tx-7") none))).1.payments.any
       (fun q => q.paymentId == mkPaymentId 9000 "r4nd0m002" &&
         q.status == "processing")) = true) :=
  ⟨rfl, rfl, rfl, c6_paid_order_accepted (DB.mk [] [paidOrder]) 9000 "r4nd0m002"
    "64b000000000000000000004" "649000000000000000000001" 5000 "+2250700000001"
    "64a000000000000000000002" paidOrder (OrangeInitResp.mk (some "om-tx-7") none)
    rfl rfl rfl⟩

/-- C4: gateway transport errors never become a failed Payment: a transport
error during the status poll leaves the store untouched, a transport error
during initiation leaves the just-created Payment pending, and the webhook
marks a payment failed only on an explicit provider FAILED status. -/
theorem c4_transport_error_safe (db : DB) (now : Millis) (uid pid rand newId : String)
    (amount : Int) (phone orderId : String) (o : Order) (body : OrangeWebhookBody)
    (horder : findOrder db orderId = some o) (hbuyer : o.buyer = uid)
    (hbody : body.status ≠ "FAILED") :
    (checkPaymentStatusRoute db now uid pid (Except.error ())).1 = db ∧
    (orangeMoneyInitiate db now rand newId uid amount phone orderId (Except.error ())).1 =
      savePayment db (createPayment newId orderId uid amount "XOF" "orange_money"
        (MobileMoneyDetails.mk (some phone) (some "orange") none) noStripe now rand) ∧
    (createPayment newId orderId uid amount "XOF" "orange_money"
       (MobileMoneyDetails.mk (some phone) (some "orange") none) noStripe now rand).status =
      "pending" ∧
    (∀ q ∈ (orangeMoneyWebhook db now body).1.payments, q.status = "failed" →
      q ∈ db.payments) := by
  have hdisp : ∀ p : Payment, pollGatewayDispatch p (Except.error ()) = Except.error () ∨
      pollGatewayDispatch p (Except.error ()) = Except.ok none := by
    intro p
    unfold pollGatewayDispatch
    split
    · left; rfl
    · split
      · left; rfl
      · split
        · left; rfl
        · right; rfl
  refine ⟨?_, ?_, rfl, ?_⟩
  · unfold checkPaymentStatusRoute
    cases hf : findPayment db pid with
    | none => rfl
    | some payment =>
      by_cases hu : (payment.user != uid) = true
      · simp [hu]
      · rcases hdisp payment with hd | hd <;> simp [hu, hd]
  · have hb : (o.buyer != uid) = false := by simp [hbuyer]
    simp [orangeMoneyInitiate, horder, hb, OrangeMoneyAPI.initiatePayment, noStripe]
  · intro q hq hstat
    cases hf : findPayment db body.reference with
    | none =>
      have heq : (orangeMoneyWebhook db now body).1.payments = db.payments := by
        simp [orangeMoneyWebhook, hf]
      rw [heq] at hq
      exact hq
    | some payment =>
      by_cases hs : (body.status == "SUCCESS") = true
      · cases hfo : findOrder (savePayment db
            (payment.markCompleted now (GatewayBlob.orangeHook body))) payment.order with
        | none =>
          have heq : (orangeMoneyWebhook db now body).1.payments =
              (savePayment db
                (payment.markCompleted now (GatewayBlob.orangeHook body))).payments := by
            simp [orangeMoneyWebhook, hf, hs, hfo]
          rw [heq] at hq
          rcases mem_savePayment_elim hq with hqp | hqdb
          · rw [hqp] at hstat
            exact absurd hstat (by simp [Payment.markCompleted])
          · exact hqdb
        | some order2 =>
          cases hsv : saveOrder (savePayment db
              (payment.markCompleted now (GatewayBlob.orangeHook body)))
              { order2 with paymentStatus := "paid", status := "confirmed" } with
          | error e =>
            have heq : (orangeMoneyWebhook db now body).1.payments =
                (savePayment db
                  (payment.markCompleted now (GatewayBlob.orangeHook body))).payments := by
              simp [orangeMoneyWebhook, hf, hs, hfo, hsv]
            rw [heq] at hq
            rcases mem_savePayment_elim hq with hqp | hqdb
            · rw [hqp] at hstat
              exact absurd hstat (by simp [Payment.markCompleted])
            · exact hqdb
          | ok dbOk =>
            have heq : (orangeMoneyWebhook db now body).1.payments = dbOk.payments := by
              simp [orangeMoneyWebhook, hf, hs, hfo, hsv]
            rw [heq, saveOrder_ok_payments hsv] at hq
            rcases mem_savePayment_elim hq with hqp | hqdb
            · rw [hqp] at hstat
              exact absurd hstat (by simp [Payment.markCompleted])
            · exact hqdb
      · have hs2 : (body.status == "FAILED") = false := by
          simp only [beq_eq_false_iff_ne, ne_eq]
          exact hbody
        have heq : (orangeMoneyWebhook db now body).1.payments = db.payments := by
          simp [orangeMoneyWebhook, hf, hs, hs2]
        rw [heq] at hq
        exact hq

/-- C4 evaluated at a concrete store, transport error and webhook body. -/
theorem c4_transport_error_safe_witness :
    findOrder pollDb "64a000000000000000000001" = some shippedOrder ∧
    shippedOrder.buyer = "649000000000000000000001" ∧
    "PENDING" ≠ "FAILED" ∧
    ((checkPaymentStatusRoute pollDb 5000 "649000000000000000000001" "PAY_1000_abc123def"
        (Except.error ())).1 = pollDb ∧
     (orangeMoneyInitiate pollDb 5000 "r4nd0m003" "64b000000000000000000005"
        "649000000000000000000001" 60000 "+2250700000001" "64a000000000000000000001"
        (Except.error ())).1 =
       savePayment pollDb (createPayment "64b000000000000000000005"
         "64a000000000000000000001" "649000000000000000000001" 60000 "XOF" "orange_money"
         (MobileMoneyDetails.mk (some "+2250700000001") (some "orange") none) noStripe
         5000 "r4nd0m003") ∧
     (createPayment "64b000000000000000000005" "64a000000000000000000001"
        "649000000000000000000001" 60000 "XOF" "orange_money"
        (MobileMoneyDetails.mk (some "+2250700000001") (some "orange") none) noStripe
        5000 "r4nd0m003").status = "pending" ∧
     (∀ q ∈ (orangeMoneyWebhook pollDb 5000
         (OrangeWebhookBody.mk (some "om-tx-1") "PENDING" "PAY_1000_abc123def")).1.payments,
       q.status = "failed" → q ∈ pollDb.payments)) :=
  ⟨rfl, rfl, by decide, c4_transport_error_safe pollDb 5000 "649000000000000000000001"
    "PAY_1000_abc123def" "r4nd0m003" "64b000000000000000000005" 60000 "+2250700000001"
    "64a000000000000000000001" shippedOrder
    (OrangeWebhookBody.mk (some "om-tx-1") "PENDING" "PAY_1000_abc123def")
    rfl rfl (by decide)⟩

/-- C2: the completed-path order update writes paymentStatus paid, a value
the Order schema enum does not allow, so order.save() is rejected: the status
poll answers 500 and persists neither the order nor the payment (the store is
unchanged), the webhook answers 500 with the order unchanged while the
payment completion, saved first, does persist.  The order is never stored as
paid, and never stored as confirmed either, so the claim that completion sets
Order.paymentStatus to paid fails on the code. -/
theorem c2_order_linkage_rejected :
    validOrderPaymentStatus "paid" = false ∧
    shippedOrder.status = "shipped" ∧
    checkPaymentStatusRoute pollDb 5000 "649000000000000000000001" "PAY_1000_abc123def"
      (Except.ok (PollResp.mk "SUCCESSFUL")) =
      (pollDb, HttpResponse.mk 500 false (some "Failed to check payment status")) ∧
    orangeMoneyWebhook pollDb 5000
      (OrangeWebhookBody.mk (some "om-tx-1") "SUCCESS" "PAY_1000_abc123def") =
      (savePayment pollDb (basePayment.markCompleted 5000 (GatewayBlob.orangeHook
         (OrangeWebhookBody.mk (some "om-tx-1") "SUCCESS" "PAY_1000_abc123def"))),
       HttpResponse.mk 500 false (some "Webhook processing failed")) ∧
    findOrder (orangeMoneyWebhook pollDb 5000
      (OrangeWebhookBody.mk (some "om-tx-1") "SUCCESS" "PAY_1000_abc123def")).1
      "64a000000000000000000001" = some shippedOrder :=
  ⟨rfl, rfl, rfl, rfl, rfl⟩

/-- C10 counterexample: a SUCCESS webhook body matching a stored Payment does
not mark the linked Order paid and confirmed: the order.save() carrying the
illegal paid value is rejected, the stored order keeps paymentStatus pending,
and the handler answers 500 instead of acknowledging the provider. -/
theorem c10_counterexample :
    findOrder (orangeMoneyWebhookRoute pollDb 5000
      (WebhookRequest.mk []
        (OrangeWebhookBody.mk (some "om-tx-1") "SUCCESS" "PAY_1000_abc123def"))).1
      "64a000000000000000000001" = some shippedOrder ∧
    shippedOrder.paymentStatus = "pending" ∧
    "pending" ≠ "paid" ∧
    (orangeMoneyWebhookRoute pollDb 5000
      (WebhookRequest.mk []
        (OrangeWebhookBody.mk (some "om-tx-1") "SUCCESS" "PAY_1000_abc123def"))).2 =
      HttpResponse.mk 500 false (some "Webhook processing failed") :=
  ⟨rfl, rfl, by decide, rfl⟩

/-- C10 (amended): the Orange Money webhook applies its effect as a function
of the request body alone: two requests with equal bodies produce identical
results whatever their headers carry, no credential is consulted, and a body
whose reference matches a stored Payment and whose status is SUCCESS
deterministically marks that Payment completed; the attempted order update is
rejected by the Order schema enum, so the linked order is left unchanged and
the handler answers 500 rather than marking it paid and confirmed. -/
theorem c10_webhook_body_determined (db : DB) (now : Millis) (req1 req2 : WebhookRequest)
    (p : Payment) (o : Order)
    (hbody : req1.body = req2.body)
    (hfind : findPayment db req1.body.reference = some p)
    (hstat : req1.body.status = "SUCCESS")
    (horder : findOrder db p.order = some o) :
    orangeMoneyWebhookRoute db now req1 = orangeMoneyWebhookRoute db now req2 ∧
    findPayment (orangeMoneyWebhookRoute db now req1).1 req1.body.reference =
      some (p.markCompleted now (GatewayBlob.orangeHook req1.body)) ∧
    (p.markCompleted now (GatewayBlob.orangeHook req1.body)).status = "completed" ∧
    findOrder (orangeMoneyWebhookRoute db now req1).1 p.order = some o ∧
    (orangeMoneyWebhookRoute db now req1).2 =
      HttpResponse.mk 500 false (some "Webhook processing failed") := by
  have hws : (req1.body.status == "SUCCESS") = true := by simp [hstat]
  have hfo1 : findOrder (savePayment db
      (p.markCompleted now (GatewayBlob.orangeHook req1.body))) p.order = some o := by
    rw [findOrder_savePayment]
    exact horder
  have hsv : saveOrder (savePayment db (p.markCompleted now (GatewayBlob.orangeHook req1.body)))
      { o with paymentStatus := "paid", status := "confirmed" } = Except.error () :=
    saveOrder_invalid_paymentStatus _ _ rfl
  have hres : orangeMoneyWebhookRoute db now req1 =
      (savePayment db (p.markCompleted now (GatewayBlob.orangeHook req1.body)),
       HttpResponse.mk 500 false (some "Webhook processing failed")) := by
    simp [orangeMoneyWebhookRoute, orangeMoneyWebhook, hfind, hws, hfo1, hsv]
  refine ⟨?_, ?_, rfl, ?_, ?_⟩
  · unfold orangeMoneyWebhookRoute
    rw [hbody]
  · rw [hres]
    exact findPayment_savePayment _ hfind rfl
  · rw [hres]
    exact hfo1
  · rw [hres]

/-- C10 amended claim evaluated at two requests that differ only in their
headers. -/
theorem c10_webhook_body_determined_witness :
    (WebhookRequest.mk [("x-signature", "forged-by-attacker")]
       (OrangeWebhookBody.mk (some "om-tx-1") "SUCCESS" "PAY_1000_abc123def")).body =
      (WebhookRequest.mk []
       (OrangeWebhookBody.mk (some "om-tx-1") "SUCCESS" "PAY_1000_abc123def")).body ∧
    findPayment pollDb "PAY_1000_abc123def" = some basePayment ∧
    findOrder pollDb basePayment.order = some shippedOrder ∧
    (orangeMoneyWebhookRoute pollDb 5000
       (WebhookRequest.mk [("x-signature", "forged-by-attacker")]
         (OrangeWebhookBody.mk (some "om-tx-1") "SUCCESS" "PAY_1000_abc123def")) =
     orangeMoneyWebhookRoute pollDb 5000
       (WebhookRequest.mk []
         (OrangeWebhookBody.mk (some "om-tx-1") "SUCCESS" "PAY_1000_abc123def")) ∧
     findPayment (orangeMoneyWebhookRoute pollDb 5000
        (WebhookRequest.mk [("x-signature", "forged-by-attacker")]
          (OrangeWebhookBody.mk (some "om-tx-1") "SUCCESS" "PAY_1000_abc123def"))).1
        "PAY_1000_abc123def" =
       some (basePayment.markCompleted 5000 (GatewayBlob.orangeHook
         (OrangeWebhookBody.mk (some "om-tx-1") "SUCCESS" "PAY_1000_abc123def"))) ∧
     (basePayment.markCompleted 5000 (GatewayBlob.orangeHook
        (OrangeWebhookBody.mk (some "om-tx-1") "SUCCESS" "PAY_1000_abc123def"))).status =
       "completed" ∧
     findOrder (orangeMoneyWebhookRoute pollDb 5000
        (WebhookRequest.mk [("x-signature", "forged-by-attacker")]
          (OrangeWebhookBody.mk (some "om-tx-1") "SUCCESS" "PAY_1000_abc123def"))).1
        basePayment.order = some shippedOrder ∧
     (orangeMoneyWebhookRoute pollDb 5000
        (WebhookRequest.mk [("x-signature", "forged-by-attacker")]
          (OrangeWebhookBody.mk (some "om-tx-1") "SUCCESS" "PAY_1000_abc123def"))).2 =
       HttpResponse.mk 500 false (some "Webhook processing failed")) :=
  ⟨rfl, rfl, rfl,
   c10_webhook_body_determined pollDb 5000
     (WebhookRequest.mk [("x-signature", "forged-by-attacker")]
       (OrangeWebhookBody.mk (some "om-tx-1") "SUCCESS" "PAY_1000_abc123def"))
     (WebhookRequest.mk []
       (OrangeWebhookBody.mk (some "om-tx-1") "SUCCESS" "PAY_1000_abc123def"))
     basePayment shippedOrder rfl rfl rfl rfl⟩

end FastDeal
